import Mathlib

/-!
# Verification of the browse-history-plugin capture agent

Shallow embedding of the Chrome-extension side of the browse-history
indexing plugin:

* `src/chrome-extension/background.js` — blocklist matching
  (`isBlocklisted`), page-content extraction (`extractTextContent`),
  transmission to the backend with a persisted failed-request queue
  (`sendToBackend`, `retryFailedRequests`), and the per-visit driver
  (`processPageVisit`);
* the popup search UI (`performSearch`, `createResultElement`) as listed
  in the repository README.

JavaScript strings are modelled by `String`, absent/`undefined` values by
`Option`, and the external `RegExp` constructor by an oracle
`RegexOracle : String → Option (String → Bool)` (`none` models a
`SyntaxError` thrown on construction, `some test` a compiled regex with
its `test` method).  `chrome.storage.local` is modelled by an explicit
`StorageState` threaded through the operations, and the asynchronous
event handlers by a step function over a list of events.
-/

namespace BrowsePlugin

/-- Model of JavaScript's `RegExp`: compiling a pattern source either
throws (`none`) or yields a predicate (`RegExp.prototype.test`). -/
def RegexOracle : Type := String → Option (String → Bool)

/-- Whitespace recognised by JavaScript's `String.prototype.trim`
(ASCII whitespace plus the common Unicode space characters). -/
def isJsWs (c : Char) : Bool :=
  c = ' ' || c = '\t' || c = '\n' || c = '\r' ||
  c = '\x0b' || c = '\x0c' || c.val = 0xa0 || c.val = 0xfeff ||
  c.val = 0x2028 || c.val = 0x2029

/-- Model of JavaScript `String.prototype.trim`: drop leading and
trailing whitespace characters. -/
def jsTrim (s : String) : String :=
  ⟨(((s.toList.dropWhile isJsWs).reverse.dropWhile isJsWs).reverse)⟩

/-- Model of JavaScript `String.prototype.includes`: substring test,
stated on the character sequences. -/
def jsIncludes (s pat : String) : Bool :=
  decide (pat.toList <:+: s.toList)

/-- Model of JavaScript `String.prototype.startsWith`, on the character
sequences. -/
def jsStartsWith (s pre : String) : Bool :=
  pre.toList.isPrefixOf s.toList

/-- Model of JavaScript `String.prototype.endsWith`, on the character
sequences. -/
def jsEndsWith (s suf : String) : Bool :=
  suf.toList.isSuffixOf s.toList

/-- Model of JavaScript `String.prototype.slice(1, -1)`: the characters
strictly between the first and the last one (empty for strings of length
at most one, matching `slice`). -/
def sliceInterior (s : String) : String :=
  ⟨(s.toList.drop 1).dropLast⟩

/-- One pattern of the blocklist tested against a URL, mirroring the body
of the `blocklist.some(pattern => ...)` callback in `isBlocklisted`
(background.js lines 15–27): a pattern that starts and ends with `/` is
compiled as a regex and tested; if compilation throws, the `catch` falls
back to a substring test of the full pattern text; any other pattern is a
plain substring test. -/
def patternMatches (rt : RegexOracle) (url pattern : String) : Bool :=
  if jsStartsWith pattern "/" && jsEndsWith pattern "/" then
    match rt (sliceInterior pattern) with
    | some test => test url
    | none => jsIncludes url pattern
  else
    jsIncludes url pattern

/-- `isBlocklisted` (background.js lines 13–28) applied to an explicit
blocklist: true iff some stored pattern matches the URL. -/
def isBlocklisted (rt : RegexOracle) (blocklist : List String) (url : String) : Bool :=
  blocklist.any (fun pattern => patternMatches rt url pattern)

/-! ## Page-content extraction and the capture payload -/

/-- The DOM-derived inputs of `extractTextContent` as seen at injection
time: the text of the selected main-content node (`innerText ||
textContent || ''`), `document.title || ''`, the description `<meta>`
content (`?.content || ''`), `window.location.href`, and the value
`new Date().toISOString()` returns at extraction time. -/
structure PageData where
  rawText : String
  rawTitle : String
  rawDescription : String
  href : String
  nowIso : String
  deriving DecidableEq, Repr

/-- The object returned by `extractTextContent`
(background.js lines 45–67). -/
structure Content where
  text : String
  title : String
  description : String
  url : String
  timestamp : String
  deriving DecidableEq, Repr

/-- `extractTextContent` (background.js lines 45–67): trims text, title
and description, and stamps the current time as an ISO string. -/
def extractTextContent (page : PageData) : Content :=
  { text := jsTrim page.rawText
    title := jsTrim page.rawTitle
    description := jsTrim page.rawDescription
    url := page.href
    timestamp := page.nowIso }

/-- The object handed to `sendToBackend` by `processPageVisit`
(background.js lines 114–120), i.e. the JSON body POSTed to
`/index`. -/
structure Payload where
  url : String
  title : String
  description : String
  text : String
  timestamp : String
  deriving DecidableEq, Repr

/-- The key/value pairs of `JSON.stringify(data)` for a payload, in the
property order of the object literal at background.js lines 114–120. -/
def Payload.jsonPairs (p : Payload) : List (String × String) :=
  [("url", p.url), ("title", p.title), ("description", p.description),
   ("text", p.text), ("timestamp", p.timestamp)]

/-- A browser tab as consulted by `processPageVisit`: `none` models a
tab whose `url` property is `undefined`. -/
structure Tab where
  url : Option String
  deriving DecidableEq, Repr

/-- Outcome of one `processPageVisit` call: skipped at the scheme guard
(background.js lines 99–101), skipped because the URL is blocklisted
(lines 103–107), extraction produced nothing to send (the
`content && content.text` test fails), or a payload was handed to
`sendToBackend`. -/
inductive VisitResult where
  | skippedScheme
  | skippedBlocklist
  | noContent
  | sent (p : Payload)
  deriving DecidableEq, Repr

/-- `processPageVisit` (background.js lines 97–126).  The injected
extraction is modelled by `page : Option PageData`: `none` models
`extractPageContent` returning `null` (script injection failed), `some`
the page data the injected `extractTextContent` reads. -/
def processPageVisit (rt : RegexOracle) (blocklist : List String)
    (tab : Tab) (page : Option PageData) : VisitResult :=
  match tab.url with
  | none => .skippedScheme
  | some u =>
    if u = "" || jsStartsWith u "chrome://" || jsStartsWith u "chrome-extension://" then
      .skippedScheme
    else if isBlocklisted rt blocklist u then
      .skippedBlocklist
    else
      match page with
      | none => .noContent
      | some pg =>
        let content := extractTextContent pg
        if content.text ≠ "" then
          .sent { url := u, title := content.title,
                  description := content.description,
                  text := content.text, timestamp := content.timestamp }
        else
          .noContent

/-! ## Storage, transmission and the retry queue -/

/-- The `chrome.storage.local` keys the background worker uses: the
blocklist (key `blocklist`) and the failed-request queue
(key `failedQueue`). -/
structure StorageState where
  blocklist : List String
  failedQueue : List Payload
  deriving DecidableEq, Repr

/-- State change of `sendToBackend` (background.js lines 70–95): the
`fetch` POST to `/index` always happens; `ok` tells whether it succeeded
(response ok and body parsed).  On failure the `catch` appends the
payload to the persisted `failedQueue`.  The function itself never
throws: every error is caught. -/
def sendToBackend (ok : Bool) (p : Payload) (s : StorageState) : StorageState :=
  if ok then s
  else { s with failedQueue := s.failedQueue ++ [p] }

/-- Where a transmission to `/index` originated: a fresh capture sent
from `processPageVisit`, or a re-send from `retryFailedRequests`. -/
inductive Origin where
  | fresh
  | retried
  deriving DecidableEq, Repr

/-- One POST of a capture payload to the backend `/index` endpoint,
together with the blocklist stored at the moment the request is
issued. -/
structure Trans where
  payload : Payload
  blocklistAtSend : List String
  origin : Origin
  deriving DecidableEq, Repr

/-- One visit event handled end-to-end: `processPageVisit` followed, in
the `.sent` case, by `sendToBackend` with network outcome `ok`.  Returns
the new storage state and the transmissions issued. -/
def stepVisit (rt : RegexOracle) (tab : Tab) (page : Option PageData)
    (ok : Bool) (s : StorageState) : StorageState × List Trans :=
  match processPageVisit rt s.blocklist tab page with
  | .sent p => (sendToBackend ok p s, [⟨p, s.blocklist, .fresh⟩])
  | _ => (s, [])

/-- The `for (const data of queue)` loop of `retryFailedRequests`
(background.js lines 152–159): each queued payload is re-sent through
`sendToBackend` (which never throws, so the loop's `catch` is dead and
every payload is pushed onto `successful`).  Returns the storage state
after the loop, the transmissions issued, and the `successful` list. -/
def retryLoop (net : Nat → Bool) (queue : List Payload)
    (s : StorageState) : StorageState × List Trans × List Payload :=
  (queue.enum.foldl
    (fun acc (d : Nat × Payload) =>
      let s' := sendToBackend (net d.1) d.2 acc.1
      (s', acc.2.1 ++ [⟨d.2, acc.1.blocklist, .retried⟩], acc.2.2 ++ [d.2]))
    (s, [], []))

/-- `retryFailedRequests` (background.js lines 144–165): read the queue;
if non-empty, re-send every entry, then overwrite `failedQueue` with the
entries of the original queue snapshot that are not in `successful`.
`net i` is the network outcome of the `i`-th re-send. -/
def retryFailedRequests (net : Nat → Bool) (s : StorageState) :
    StorageState × List Trans :=
  let queue := s.failedQueue
  if queue.isEmpty then (s, [])
  else
    let r := retryLoop net queue s
    let remaining := queue.filter (fun item => !(r.2.2.contains item))
    ({ r.1 with failedQueue := remaining }, r.2.1)

/-- The asynchronous events a run of the background worker interleaves:
a completed tab visit (with its page data and network outcome), a
blocklist update written by the popup, and a timer-triggered retry
pass. -/
inductive Event where
  | visit (tab : Tab) (page : Option PageData) (ok : Bool)
  | setBlocklist (bl : List String)
  | retry (net : Nat → Bool)

/-- One event handled from storage state `s`. -/
def step (rt : RegexOracle) (s : StorageState) : Event → StorageState × List Trans
  | .visit tab page ok => stepVisit rt tab page ok s
  | .setBlocklist bl => ({ s with blocklist := bl }, [])
  | .retry net => retryFailedRequests net s

/-- A whole run: fold the events, collecting every transmission to the
backend `/index` endpoint in order. -/
def run (rt : RegexOracle) (s : StorageState) : List Event → StorageState × List Trans
  | [] => (s, [])
  | e :: es =>
    let r := step rt s e
    let rest := run rt r.1 es
    (rest.1, r.2 ++ rest.2)

/-! ## The popup search UI (README listing: `performSearch`,
`createResultElement`) -/

/-- Numeric value of a hexadecimal digit, `none` otherwise. -/
def hexDigitVal (c : Char) : Option Nat :=
  if '0' ≤ c ∧ c ≤ '9' then some (c.toNat - '0'.toNat)
  else if 'a' ≤ c ∧ c ≤ 'f' then some (c.toNat - 'a'.toNat + 10)
  else if 'A' ≤ c ∧ c ≤ 'F' then some (c.toNat - 'A'.toNat + 10)
  else none

/-- Value of the longest leading run of digits of the given base,
`none` when there is no leading digit (JavaScript `parseInt` returns
`NaN` then). -/
def leadingDigits (digitVal : Char → Option Nat) (base : Nat)
    (l : List Char) : Option Nat :=
  let ds := l.takeWhile (fun c => (digitVal c).isSome)
  if ds.isEmpty then none
  else some (ds.foldl (fun a c => a * base + (digitVal c).getD 0) 0)

/-- Model of JavaScript `parseInt(s)` (radix argument omitted): skip
leading whitespace, read an optional sign, honour a `0x`/`0X` prefix as
hexadecimal, otherwise read leading decimal digits; `none` models
`NaN`. -/
def jsParseInt (s : String) : Option Int :=
  let l := s.toList.dropWhile isJsWs
  let signed : Int × List Char :=
    match l with
    | '-' :: r => (-1, r)
    | '+' :: r => (1, r)
    | _ => (1, l)
  let body : Option Nat :=
    match signed.2 with
    | '0' :: 'x' :: r => leadingDigits hexDigitVal 16 r
    | '0' :: 'X' :: r => leadingDigits hexDigitVal 16 r
    | r => leadingDigits (fun c => if c.isDigit then some (c.toNat - '0'.toNat) else none) 10 r
  body.map (fun n => signed.1 * n)

/-- `parseInt(topKInput.value) || 5` (README `performSearch`): `NaN` and
`0` are falsy, so both fall back to 5. -/
def resolveTopK (s : String) : Int :=
  match jsParseInt s with
  | none => 5
  | some n => if n = 0 then 5 else n

/-- One entry of the `/search` response's `results` array.  `Option`
fields model properties that may be absent (`undefined`); the distance
type `α` stands for the JSON number type. -/
structure SearchResult (α : Type) where
  url : String
  title : String
  chunk_text : Option String
  distance : Option α
  timestamp : Option String
  chunk_index : Option Int
  total_chunks : Option Int
  deriving DecidableEq, Repr

/-- The parsed `/search` response body; `results` is `none` when the
`results` property is absent (`data.results || []`). -/
structure SearchResponse (α : Type) where
  results : Option (List (SearchResult α))
  deriving DecidableEq, Repr

/-- The search request `performSearch` issues: the query and `top_k`
placed in the `/search` URL. -/
structure SearchRequest where
  query : String
  topK : Int
  deriving DecidableEq, Repr

/-- The DOM element `createResultElement` builds, reduced to its data:
displayed title (`result.title || 'Untitled'`), displayed URL, the
snippet (first 150 characters of `chunk_text` plus `...` when longer),
the distance value rendered into the meta line (when
`distance !== undefined`), the timestamp rendered (when truthy), the
`Chunk i+1/n` label (when both indices are defined), and the URL the
click handler opens. -/
structure RenderedResult (α : Type) where
  title : String
  url : String
  snippet : Option String
  distanceShown : Option α
  timestampShown : Option String
  chunkLabel : Option (Int × Int)
  clickUrl : String
  deriving DecidableEq, Repr

/-- `createResultElement` (README lines 355–402).  The `rank` argument
is accepted but never read by the function body. -/
def createResultElement (r : SearchResult α) (_rank : Nat) : RenderedResult α :=
  { title := if r.title = "" then "Untitled" else r.title
    url := r.url
    snippet :=
      match r.chunk_text with
      | some t =>
        if t ≠ "" then
          some (if t.toList.length > 150 then
                  String.mk (t.toList.take 150) ++ "..."
                else t)
        else none
      | none => none
    distanceShown := r.distance
    timestampShown :=
      match r.timestamp with
      | some t => if t ≠ "" then some t else none
      | none => none
    chunkLabel :=
      match r.chunk_index, r.total_chunks with
      | some i, some n => some (i + 1, n)
      | _, _ => none
    clickUrl := r.url }

/-- What one `performSearch` call did: the request issued to `/search`
(`none` when the empty-query guard returned first), the final status
line, and the result elements appended to `searchResults` in order. -/
structure SearchOutcome (α : Type) where
  request : Option SearchRequest
  statusText : String
  statusClass : String
  rendered : List (RenderedResult α)
  deriving DecidableEq, Repr

/-- `performSearch` (README lines 295–352).  `fetchResult` models the
awaited `fetch`/`response.json()`: `Except.error msg` is any thrown
error (network failure, non-ok response, bad JSON) with its message,
`Except.ok data` the parsed body. -/
def performSearch (queryVal topKVal : String)
    (fetchResult : Except String (SearchResponse α)) : SearchOutcome α :=
  let query := jsTrim queryVal
  let topK := resolveTopK topKVal
  if query = "" then
    { request := none, statusText := "Please enter a search query",
      statusClass := "status error", rendered := [] }
  else
    match fetchResult with
    | .error msg =>
      { request := some ⟨query, topK⟩,
        statusText := "Search failed: " ++ msg,
        statusClass := "status error", rendered := [] }
    | .ok data =>
      let results := data.results.getD []
      if results.isEmpty then
        { request := some ⟨query, topK⟩,
          statusText := "No matching pages found",
          statusClass := "status info", rendered := [] }
      else
        { request := some ⟨query, topK⟩,
          statusText := "Found " ++ toString results.length ++ " result(s)",
          statusClass := "status success",
          rendered := results.enum.map (fun d => createResultElement d.2 (d.1 + 1)) }

/-! ## Concrete sample data

Closed instances used to exercise the definitions at concrete inputs. -/

/-- A regex oracle under which every pattern source fails to compile
(every `new RegExp(...)` throws). -/
def rtNone : RegexOracle := fun _ => none

/-- A regex oracle with a single compilable pattern source, `mail`,
whose compiled form matches any string containing `mail`. -/
def rtSample : RegexOracle := fun src =>
  if src = "mail" then some (fun u => jsIncludes u "mail") else none

/-- A sample ordinary tab. -/
def tabX : Tab := ⟨some "https://x.com/a"⟩

/-- Sample page data for `tabX`. -/
def pageX : PageData :=
  ⟨" hello world ", " T ", "", "https://x.com/a", "2026-01-01T00:00:00.000Z"⟩

/-- The payload `processPageVisit` produces for `tabX`/`pageX`. -/
def payloadX : Payload :=
  ⟨"https://x.com/a", "T", "", "hello world", "2026-01-01T00:00:00.000Z"⟩

/-- A sample queued payload. -/
def payloadQ : Payload := ⟨"https://x.com/a", "T", "", "hello", "t0"⟩

/-- A run in which a capture of `https://x.com/a` fails to send and is
queued while the blocklist is empty, the user then adds `x.com` to the
blocklist, and the retry timer fires with the network back up. -/
def eventsC1 : List Event :=
  [.visit tabX (some pageX) false,
   .setBlocklist ["x.com"],
   .retry (fun _ => true)]

/-- A sample search result with every field present. -/
def resultA : SearchResult Nat :=
  ⟨"https://a", "Page A", some "body text", some 7, some "2026-01-01", some 0, some 2⟩

/-- A second sample search result, with a larger distance and missing
optional fields. -/
def resultB : SearchResult Nat :=
  ⟨"https://b", "", none, some 9, none, none, none⟩

/-- A sample search response holding `resultA` then `resultB`. -/
def respAB : SearchResponse Nat := ⟨some [resultA, resultB]⟩

/-! ## Helper lemmas -/

theorem dropWhile_rdropWhile_dropWhile (q : Char → Bool) (l : List Char) :
    List.dropWhile q (List.rdropWhile q (List.dropWhile q l))
      = List.rdropWhile q (List.dropWhile q l) := by
  rw [List.dropWhile_eq_self_iff]
  intro hl
  have hpre : List.rdropWhile q (List.dropWhile q l) <+: List.dropWhile q l :=
    List.rdropWhile_prefix q (List.dropWhile q l)
  have hlen : 0 < (List.dropWhile q l).length := lt_of_lt_of_le hl hpre.length_le
  have hz := List.dropWhile_get_zero_not q l hlen
  simpa [List.get_eq_getElem, List.IsPrefix.getElem hpre hl] using hz

theorem trimList_idem (q : Char → Bool) (l : List Char) :
    List.rdropWhile q (List.dropWhile q (List.rdropWhile q (List.dropWhile q l)))
      = List.rdropWhile q (List.dropWhile q l) := by
  rw [dropWhile_rdropWhile_dropWhile, List.rdropWhile_idempotent]

theorem jsTrim_toList (s : String) :
    (jsTrim s).toList = List.rdropWhile isJsWs (List.dropWhile isJsWs s.toList) := rfl

theorem jsTrim_idem (s : String) : jsTrim (jsTrim s) = jsTrim s :=
  congrArg String.mk (trimList_idem isJsWs s.toList)

theorem processPageVisit_sent_spec (rt : RegexOracle) (bl : List String)
    (tab : Tab) (page : Option PageData) (p : Payload)
    (h : processPageVisit rt bl tab page = .sent p) :
    ∃ u pg, tab.url = some u ∧ page = some pg ∧
      (decide (u = "") || jsStartsWith u "chrome://" || jsStartsWith u "chrome-extension://") = false ∧
      isBlocklisted rt bl u = false ∧
      (extractTextContent pg).text ≠ "" ∧
      p = { url := u, title := (extractTextContent pg).title,
            description := (extractTextContent pg).description,
            text := (extractTextContent pg).text,
            timestamp := (extractTextContent pg).timestamp } := by
  cases htab : tab.url with
  | none => simp [processPageVisit, htab] at h
  | some u =>
    cases hpg : page with
    | none =>
      simp only [processPageVisit, htab, hpg] at h
      split_ifs at h
    | some pg =>
      simp only [processPageVisit, htab, hpg] at h
      split_ifs at h with h1 h2 h3
      simp only [VisitResult.sent.injEq] at h
      exact ⟨u, pg, rfl, rfl, Bool.eq_false_iff.mpr h1,
        Bool.eq_false_iff.mpr h2, h3, h.symm⟩

/-! ## Claims -/

/-- C2: blocklist matching is substring-or-regex.  For every URL and
stored pattern: a pattern that starts and ends with `/` whose interior
compiles is matched by testing the compiled regex against the URL; every
pattern that is not slash-delimited matches iff it occurs as a literal
substring of the URL; and `isBlocklisted` returns true iff some pattern
in the stored list matches. -/
theorem claim_C2 (rt : RegexOracle) (url : String) (bl : List String) :
    (∀ pattern test, jsStartsWith pattern "/" = true → jsEndsWith pattern "/" = true →
        rt (sliceInterior pattern) = some test →
        patternMatches rt url pattern = test url)
    ∧ (∀ pattern, (jsStartsWith pattern "/" && jsEndsWith pattern "/") = false →
        (patternMatches rt url pattern = true ↔ pattern.toList <:+: url.toList))
    ∧ (isBlocklisted rt bl url = true ↔
        ∃ pattern ∈ bl, patternMatches rt url pattern = true) := by
  refine ⟨?_, ?_, ?_⟩
  · intro pattern test h1 h2 h3
    simp [patternMatches, h1, h2, h3]
  · intro pattern hcond
    simp [patternMatches, hcond, jsIncludes]
  · simp [isBlocklisted, List.any_eq_true]

/-- Witness for C2 at concrete inputs: the slash-delimited pattern
`/mail/` is matched through the compiled regex, the plain pattern
`google` by substring, and `isBlocklisted` agrees with the existence of
a matching pattern. -/
theorem claim_C2_witness :
    patternMatches rtSample "https://mail.google.com" "/mail/"
        = jsIncludes "https://mail.google.com" "mail"
    ∧ (patternMatches rtSample "https://mail.google.com" "google" = true
        ↔ "google".toList <:+: "https://mail.google.com".toList)
    ∧ (isBlocklisted rtSample ["zzz", "google"] "https://mail.google.com" = true
        ↔ ∃ pattern ∈ ["zzz", "google"],
            patternMatches rtSample "https://mail.google.com" pattern = true) := by
  have h := claim_C2 rtSample "https://mail.google.com" ["zzz", "google"]
  exact ⟨h.1 "/mail/" (fun u => jsIncludes u "mail") rfl rfl rfl,
    h.2.1 "google" rfl, h.2.2⟩

/-- C9: `isBlocklisted` is total — it returns a boolean on every input
(in this embedding the one JavaScript operation that can throw,
`new RegExp`, is modelled by the oracle returning `none`, and the
`catch` turns that case into a substring test, so the function is total
by construction) — and a slash-delimited pattern whose interior does not
compile falls back to literal substring matching of the full pattern
text, delimiting slashes included. -/
theorem claim_C9 (rt : RegexOracle) (bl : List String) (url pattern : String) :
    (isBlocklisted rt bl url = true ∨ isBlocklisted rt bl url = false)
    ∧ (jsStartsWith pattern "/" = true → jsEndsWith pattern "/" = true →
        rt (sliceInterior pattern) = none →
        (patternMatches rt url pattern = true ↔ pattern.toList <:+: url.toList)) := by
  constructor
  · cases hb : isBlocklisted rt bl url
    · exact Or.inr rfl
    · exact Or.inl rfl
  · intro h1 h2 h3
    simp [patternMatches, h1, h2, h3, jsIncludes]

/-- Witness for C9: under an oracle where no pattern compiles, the
pattern `/x(/` (invalid regex interior `x(`) matches the URL `a/x(/b`
exactly because the full text `/x(/` is a substring of it. -/
theorem claim_C9_witness :
    (isBlocklisted rtNone ["/x(/"] "a/x(/b" = true
      ∨ isBlocklisted rtNone ["/x(/"] "a/x(/b" = false)
    ∧ (patternMatches rtNone "a/x(/b" "/x(/" = true
        ↔ "/x(/".toList <:+: "a/x(/b".toList) :=
  ⟨(claim_C9 rtNone ["/x(/"] "a/x(/b" "/x(/").1,
   (claim_C9 rtNone ["/x(/"] "a/x(/b" "/x(/").2 rfl rfl rfl⟩

/-- C10: tabs with no URL (or an empty URL, which is equally falsy) and
URLs with the `chrome://` or `chrome-extension://` scheme prefix are
skipped unconditionally by `processPageVisit` before the blocklist is
consulted: for every blocklist and page state the outcome is
`skippedScheme` — no extraction, no send. -/
theorem claim_C10 (rt : RegexOracle) (bl : List String) (tab : Tab)
    (page : Option PageData)
    (h : tab.url = none ∨ tab.url = some "" ∨
        (∃ u, tab.url = some u ∧
          (jsStartsWith u "chrome://" = true ∨ jsStartsWith u "chrome-extension://" = true))) :
    processPageVisit rt bl tab page = .skippedScheme := by
  rcases h with h | h | ⟨u, hu, hp | hp⟩
  · simp [processPageVisit, h]
  · simp [processPageVisit, h]
  · simp [processPageVisit, hu, hp]
  · simp [processPageVisit, hu, hp]

/-- Witness for C10: a `chrome://` tab is skipped even with a non-empty
blocklist and page content available. -/
theorem claim_C10_witness :
    processPageVisit rtNone ["x"] ⟨some "chrome://settings"⟩ (some pageX)
      = .skippedScheme :=
  claim_C10 rtNone ["x"] ⟨some "chrome://settings"⟩ (some pageX)
    (Or.inr (Or.inr ⟨"chrome://settings", rfl, Or.inl rfl⟩))

/-- C1 (amended): a tab visit whose URL matches the blocklist stored at
the moment `processPageVisit` checks it is never handed to
`sendToBackend`.  (The original claim further asserted that no
transmission at all — including re-sends from the failed-request queue —
is ever of a URL blocklisted at transmission time; that is refuted by
`claim_C1_counterexample`, since `retryFailedRequests` re-sends without
re-checking the blocklist.) -/
theorem claim_C1 (rt : RegexOracle) (bl : List String) (tab : Tab)
    (page : Option PageData) (u : String) (p : Payload)
    (hu : tab.url = some u) (hb : isBlocklisted rt bl u = true) :
    processPageVisit rt bl tab page ≠ .sent p := by
  intro h
  obtain ⟨u', pg, hu', -, -, hbl, -, -⟩ :=
    processPageVisit_sent_spec rt bl tab page p h
  rw [hu] at hu'
  obtain rfl : u = u' := Option.some.inj hu'
  rw [hb] at hbl
  exact Bool.noConfusion hbl

/-- Witness for C1 (amended): a visit to `https://x.com/a` while
`x.com` is on the blocklist does not produce the send of its payload. -/
theorem claim_C1_witness :
    processPageVisit rtNone ["x.com"] tabX (some pageX) ≠ .sent payloadX :=
  claim_C1 rtNone ["x.com"] tabX (some pageX) "https://x.com/a" payloadX rfl
    (by decide)

/-- Counterexample to C1 as stated: in the run `eventsC1` — the capture
of `https://x.com/a` fails to send and is queued while the blocklist is
empty, the blocklist is then set to `["x.com"]`, and the retry timer
fires — a payload whose URL is blocklisted at the moment of transmission
is POSTed to the backend `/index` endpoint. -/
theorem claim_C1_counterexample :
    ∃ t ∈ (run rtNone ⟨[], []⟩ eventsC1).2,
      isBlocklisted rtNone t.blocklistAtSend t.payload.url = true := by
  decide

/-- C5 at its failing input: `sendToBackend` does append a payload whose
transmission failed to the persisted queue (first conjunct, the claim's
true half), but a retry pass over a queue holding `payloadQ` in which
the re-send fails again (`net` constantly false) still issues the
re-send and then leaves the queue empty — the failed payload is dropped,
contradicting the claim that a payload remains queued iff its re-send
did not succeed.  The cause: `sendToBackend` catches all errors
internally, so the `catch` in `retryFailedRequests` is dead code, every
entry lands in `successful`, and the final write empties the queue. -/
theorem claim_C5 :
    (sendToBackend false payloadQ ⟨[], []⟩).failedQueue = [payloadQ]
    ∧ (retryFailedRequests (fun _ => false) ⟨[], [payloadQ]⟩).2
        = [⟨payloadQ, [], .retried⟩]
    ∧ ((retryFailedRequests (fun _ => false) ⟨[], [payloadQ]⟩).1).failedQueue
        = [] := by
  refine ⟨rfl, by decide, by decide⟩

/-- C3: every payload `processPageVisit` hands to `sendToBackend` — the
JSON body POSTed to `/index` — carries exactly the five keys `url`,
`title`, `description`, `text`, `timestamp`; `url` is the tab's URL, the
other text fields come from the extracted page content, and `timestamp`
is the ISO-8601 string `new Date().toISOString()` produced at extraction
time (the field `nowIso` of the page data). -/
theorem claim_C3 (rt : RegexOracle) (bl : List String) (tab : Tab)
    (page : Option PageData) (p : Payload)
    (h : processPageVisit rt bl tab page = .sent p) :
    ∃ u pg, tab.url = some u ∧ page = some pg ∧
      p.url = u ∧
      p.title = (extractTextContent pg).title ∧
      p.description = (extractTextContent pg).description ∧
      p.text = (extractTextContent pg).text ∧
      p.timestamp = pg.nowIso ∧
      (Payload.jsonPairs p).map Prod.fst
        = ["url", "title", "description", "text", "timestamp"] := by
  obtain ⟨u, pg, hu, hpg, -, -, -, hp⟩ :=
    processPageVisit_sent_spec rt bl tab page p h
  subst hp
  exact ⟨u, pg, hu, hpg, rfl, rfl, rfl, rfl, rfl, rfl⟩

/-- Witness for C3: the concrete visit of `tabX`/`pageX` sends
`payloadX`, whose fields and key set are as claimed. -/
theorem claim_C3_witness :
    ∃ u pg, tabX.url = some u ∧ (some pageX : Option PageData) = some pg ∧
      payloadX.url = u ∧
      payloadX.title = (extractTextContent pg).title ∧
      payloadX.description = (extractTextContent pg).description ∧
      payloadX.text = (extractTextContent pg).text ∧
      payloadX.timestamp = pg.nowIso ∧
      (Payload.jsonPairs payloadX).map Prod.fst
        = ["url", "title", "description", "text", "timestamp"] :=
  claim_C3 rtNone [] tabX (some pageX) payloadX (by decide)

/-- C8: the capture agent never sends empty text — a payload is handed
to `sendToBackend` only when the extracted text is non-empty — and the
`text`, `title` and `description` fields it sends are trimmed of leading
and trailing whitespace (they are fixed points of `jsTrim`, so the
backend's empty-after-trimming branch is unreachable from this
producer). -/
theorem claim_C8 (rt : RegexOracle) (bl : List String) (tab : Tab)
    (page : Option PageData) (p : Payload)
    (h : processPageVisit rt bl tab page = .sent p) :
    p.text ≠ "" ∧ jsTrim p.text = p.text ∧ jsTrim p.title = p.title
    ∧ jsTrim p.description = p.description := by
  obtain ⟨u, pg, -, -, -, -, htext, hp⟩ :=
    processPageVisit_sent_spec rt bl tab page p h
  subst hp
  exact ⟨htext, jsTrim_idem pg.rawText, jsTrim_idem pg.rawTitle,
    jsTrim_idem pg.rawDescription⟩

/-- Witness for C8: the payload sent for `tabX`/`pageX` has non-empty,
fully trimmed text fields. -/
theorem claim_C8_witness :
    payloadX.text ≠ "" ∧ jsTrim payloadX.text = payloadX.text
    ∧ jsTrim payloadX.title = payloadX.title
    ∧ jsTrim payloadX.description = payloadX.description :=
  claim_C8 rtNone [] tabX (some pageX) payloadX (by decide)

theorem performSearch_request {α : Type} (queryVal topKVal : String)
    (f : Except String (SearchResponse α)) (req : SearchRequest)
    (hreq : (performSearch queryVal topKVal f).request = some req) :
    req = ⟨jsTrim queryVal, resolveTopK topKVal⟩ := by
  simp only [performSearch] at hreq
  split_ifs at hreq with hq
  rcases f with msg | data
  · simp only [Option.some.injEq] at hreq
    exact hreq.symm
  · dsimp only at hreq
    split_ifs at hreq with hres <;>
      · simp only [Option.some.injEq] at hreq
        exact hreq.symm

/-- C4: for every search invocation that issues a request, if the
`top_k` input is empty or does not parse to a number
(`parseInt` yields `NaN`), the request carries `top_k = 5`. -/
theorem claim_C4 {α : Type} (queryVal topKVal : String)
    (f : Except String (SearchResponse α)) (req : SearchRequest)
    (hempty : topKVal = "" ∨ jsParseInt topKVal = none)
    (hreq : (performSearch queryVal topKVal f).request = some req) :
    req.topK = 5 := by
  have hnp : jsParseInt topKVal = none := by
    rcases hempty with h | h
    · rw [h]; rfl
    · exact h
  rw [performSearch_request queryVal topKVal f req hreq]
  simp [resolveTopK, hnp]

/-- Witness for C4: with the non-numeric `top_k` input `abc`, the
request issued for the query `q` carries `top_k = 5`. -/
theorem claim_C4_witness :
    (SearchRequest.mk "q" 5).topK = 5 :=
  claim_C4 "q" "abc" (Except.error "e" : Except String (SearchResponse Nat))
    ⟨"q", 5⟩ (Or.inr (by decide)) (by decide)

/-- C6: a search invocation whose query is empty after trimming is
rejected before any request is issued: the outcome carries no request,
the status shown is the error `Please enter a search query`, and no
result list is produced. -/
theorem claim_C6 {α : Type} (queryVal topKVal : String)
    (f : Except String (SearchResponse α)) (h : jsTrim queryVal = "") :
    (performSearch queryVal topKVal f).request = none
    ∧ (performSearch queryVal topKVal f).statusText = "Please enter a search query"
    ∧ (performSearch queryVal topKVal f).statusClass = "status error"
    ∧ (performSearch queryVal topKVal f).rendered = [] := by
  simp [performSearch, h]

/-- Witness for C6: the all-whitespace query `"  "` is rejected with the
error status and an empty result list, and no request is issued. -/
theorem claim_C6_witness :
    (performSearch "  " "3" (Except.error "e" : Except String (SearchResponse Nat))).request = none
    ∧ (performSearch "  " "3" (Except.error "e" : Except String (SearchResponse Nat))).statusText
        = "Please enter a search query"
    ∧ (performSearch "  " "3" (Except.error "e" : Except String (SearchResponse Nat))).statusClass
        = "status error"
    ∧ (performSearch "  " "3" (Except.error "e" : Except String (SearchResponse Nat))).rendered = [] :=
  claim_C6 "  " "3" (Except.error "e") (by decide)

/-- C7: the results of a search response are presented in exactly the
order of the response's `results` array — the rendered list has the same
length, and its `i`-th element is the rendering of the `i`-th result
(no re-ranking or sorting) — and the distance value shown for each
result is the `distance` returned for that same result. -/
theorem claim_C7 {α : Type} (queryVal topKVal : String)
    (resp : SearchResponse α) (i : Nat)
    (hq : jsTrim queryVal ≠ "")
    (hi : i < (resp.results.getD []).length) :
    ((performSearch queryVal topKVal (Except.ok resp)).rendered).length
        = (resp.results.getD []).length
    ∧ ((performSearch queryVal topKVal (Except.ok resp)).rendered)[i]?
        = some (createResultElement ((resp.results.getD []).get ⟨i, hi⟩) (i + 1))
    ∧ (((performSearch queryVal topKVal (Except.ok resp)).rendered)[i]?).map
          RenderedResult.distanceShown
        = some ((resp.results.getD []).get ⟨i, hi⟩).distance := by
  have hrendered :
      (performSearch queryVal topKVal (Except.ok resp)).rendered
        = (resp.results.getD []).enum.map (fun d => createResultElement d.2 (d.1 + 1)) := by
    unfold performSearch
    rw [if_neg hq]
    dsimp only
    split_ifs with hres
    · rw [List.isEmpty_iff] at hres
      rw [hres]
      rfl
    · rfl
  refine ⟨?_, ?_, ?_⟩
  · rw [hrendered, List.length_map, List.enum_length]
  · rw [hrendered, List.getElem?_map, List.getElem?_enum,
      List.getElem?_eq_getElem hi]
    rfl
  · rw [hrendered, List.getElem?_map, List.getElem?_enum,
      List.getElem?_eq_getElem hi]
    rfl

/-- Witness for C7: in the two-result response `respAB`, the element
rendered at position 1 is the rendering of `resultB` and shows
`resultB`'s distance. -/
theorem claim_C7_witness :
    ((performSearch "q" "" (Except.ok respAB)).rendered).length
        = (respAB.results.getD []).length
    ∧ ((performSearch "q" "" (Except.ok respAB)).rendered)[1]?
        = some (createResultElement ((respAB.results.getD []).get ⟨1, by decide⟩) 2)
    ∧ (((performSearch "q" "" (Except.ok respAB)).rendered)[1]?).map
          RenderedResult.distanceShown
        = some ((respAB.results.getD []).get ⟨1, by decide⟩).distance :=
  claim_C7 "q" "" respAB 1 (by decide) (by decide)

end BrowsePlugin
